import Mathlib

/-!
Verification of the gosqs configuration component (`config.go`).

The file gives a shallow embedding of the configuration layer of the
gosqs repository: the `Config` record, the custom-attribute builder
`Config.NewCustomAttribute`, the retry-count clamp `retryer.MaxRetries`,
and the default AWS bootstrap `newAwsConfigs`.  The AWS SDK collaborators
(static credential retrieval and `config.LoadDefaultConfig`) and the
repository code that lives outside the provided file (the error
constants and the resolution dispatch) are modelled explicitly, each
marked in its doc comment.
-/

namespace Gosqs

/-- Go `interface{}` values that callers pass to `NewCustomAttribute`.
Each constructor is one Go dynamic type; the type switch in the code
(`value.(int)`, `value.(string)`) inspects only the constructor.  The
`float64` payload is restricted to whole numbers, which suffices for the
claims (the type switch never reads the payload of a rejected value). -/
inductive GoValue where
  | int (v : Int)
  | int64 (v : Int)
  | int32 (v : Int)
  | float64 (v : Int)
  | string (s : String)
  | bool (b : Bool)
deriving DecidableEq, Repr

/-- True exactly when the dynamic value has Go type `int` (the only type
accepted by the `value.(int)` assertion). -/
def GoValue.isGoInt : GoValue → Bool
  | .int _ => true
  | _ => false

/-- True exactly when the dynamic value has Go type `string`. -/
def GoValue.isGoString : GoValue → Bool
  | .string _ => true
  | _ => false

/-- Modelled from the spec: the error kinds of §7.  `ErrMarshal` and
`ErrInvalidCreds` are defined in the repository's errors file, which is
not among the provided sources; the spec says `InvalidCredentials`
"always carries the underlying cause".  `external` stands for an opaque
error produced by a collaborator (the SDK). -/
inductive GoError where
  | invalidCreds (cause : GoError)
  | marshal
  | external (tag : String)
deriving DecidableEq, Repr

/-- Modelled from the spec: the `Marshal` error constant (`ErrMarshal`
in the repository's errors file, not among the provided sources). -/
def ErrMarshal : GoError := .marshal

/-- Modelled from the spec: `ErrInvalidCreds.Context(err)` builds the
`InvalidCredentials` error wrapping the underlying cause `err` (the
errors file is not among the provided sources; the spec requires the
error to wrap/chain the cause). -/
def ErrInvalidCredsContext (cause : GoError) : GoError := .invalidCreds cause

/-- Go struct `customAttribute` of config.go: title, data-type tag as a
string, and the string-encoded value. -/
structure customAttribute where
  Title : String
  DataType : String
  Value : String
deriving DecidableEq, Repr

/-- Go `type dataType string` of config.go. -/
structure dataType where
  val : String
deriving DecidableEq, Repr

/-- Go method `dataType.String()`: the underlying string. -/
def dataType.String (dt : dataType) : String := dt.val

/-- Go constant `DataTypeNumber = dataType("Number")`. -/
def DataTypeNumber : dataType := ⟨"Number"⟩

/-- Go constant `DataTypeString = dataType("String")`. -/
def DataTypeString : dataType := ⟨"String"⟩

/-- Go `strconv.Itoa`: the base-10 decimal string of an integer
(`toString` on `Int` is exactly decimal notation with a leading minus
sign for negatives, as in Go). -/
def Itoa (v : Int) : String := toString v

/-- Go struct `Config` of config.go.  The field `AwsConfigProvider` has
Go type `SessionProviderFunc = func(c Config) (aws.Config, error)`,
which mentions `Config` itself in negative position; the embedding
therefore abstracts the provider as a type parameter `π`, interpreted by
an evaluation function where the provider is invoked (see `Resolve`).
`Logger` is an interface defined outside the provided sources and is
modelled opaquely.  Field defaults are the Go zero values. -/
structure Config (π : Type) where
  awsConfigProvider : Option π := none
  key : String := ""
  secret : String := ""
  region : String := ""
  hostname : String := ""
  awsAccountID : String := ""
  env : String := ""
  topicPrefix : String := ""
  topicARN : String := ""
  queueURL : String := ""
  visibilityTimeout : Int := 0
  retryCount : Int := 0
  workerPool : Int := 0
  extensionLimit : Option Int := none
  attributes : List customAttribute := []
  logger : Option Unit := none
deriving DecidableEq, Repr

/-- Go method `Config.NewCustomAttribute` of config.go.  The Go method
mutates the receiver through a pointer and returns an error; the
embedding returns the updated `Config` paired with the returned error
(`none` = Go `nil`).
```go
if dataType == DataTypeNumber {
    val, ok := value.(int)
    if !ok { return ErrMarshal }
    c.Attributes = append(c.Attributes, customAttribute{title, dataType.String(), strconv.Itoa(val)})
    return nil
}
val, ok := value.(string)
if !ok { return ErrMarshal }
c.Attributes = append(c.Attributes, customAttribute{title, dataType.String(), val})
return nil
``` -/
def Config.NewCustomAttribute {π : Type} (c : Config π) (dt : dataType)
    (title : String) (value : GoValue) : Config π × Option GoError :=
  if dt = DataTypeNumber then
    match value with
    | .int val =>
        ({ c with attributes := c.attributes ++ [⟨title, dataType.String dt, Itoa val⟩] }, none)
    | _ => (c, some ErrMarshal)
  else
    match value with
    | .string val =>
        ({ c with attributes := c.attributes ++ [⟨title, dataType.String dt, val⟩] }, none)
    | _ => (c, some ErrMarshal)

/-- Go struct `retryer` of config.go: wraps the configured retry count. -/
structure retryer where
  retryCount : Int
deriving DecidableEq, Repr

/-- Go method `retryer.MaxRetries` of config.go:
```go
if r.retryCount > 0 { return r.retryCount }
return 10
``` -/
def retryer.MaxRetries (r : retryer) : Int :=
  if r.retryCount > 0 then r.retryCount else 10

/-- AWS credentials value, also standing for the static cached
credential provider built by
`aws.NewCredentialsCache(credentials.NewStaticCredentialsProvider(key, secret, ""))`:
that provider is determined by its (key, secret, session) triple. -/
structure Credentials where
  accessKeyID : String
  secretAccessKey : String
  sessionToken : String
deriving DecidableEq, Repr

/-- Go `credentials.NewStaticCredentialsProvider(key, secret, session)`. -/
def NewStaticCredentialsProvider (key secret session : String) : Credentials :=
  ⟨key, secret, session⟩

/-- Fixed diagnostic log mode `aws.LogResponseWithBody` attached by the
bootstrap; the numeric value of the SDK flag is irrelevant to the claims
and a distinguished non-zero value stands for it. -/
def LogResponseWithBody : Nat := 1

/-- Modelled from the spec: the `aws.Config` produced by the
region/client-settings loader (`ResolvedClientConfig` of §3) — a region,
a credential source, a retry policy bound to its maximum attempt count,
a client log mode, an optional base endpoint, and an opaque remainder
`sharedState` standing for everything else the loader resolves. -/
structure AwsConfig where
  region : String := ""
  credentials : Credentials := ⟨"", "", ""⟩
  retryerMaxAttempts : Int := 0
  clientLogMode : Nat := 0
  baseEndpoint : Option String := none
  sharedState : String := ""
deriving DecidableEq, Repr

/-- Modelled from the spec: the outbound collaborators of §6, which are
AWS SDK code outside this repository.  `retrieveErr` is the outcome of
the one eager `creds.Retrieve(ctx)` round trip for a given static
credential provider (`none` = success; the retrieved value itself is
discarded by the code).  `loadShared` is the fallible
environment-dependent part of `config.LoadDefaultConfig` for a given
region, producing the opaque remainder of the configuration. -/
structure SdkEnv where
  retrieveErr : Credentials → Option GoError
  loadShared : String → Except GoError String

/-- Modelled from the spec: `config.LoadDefaultConfig` with the options
the bootstrap passes — per §6 the loader is "given region + credential
source + retry wrapper + logging mode" and "produces a base client
configuration or fails".  On success the explicit options bind the
region, the credential source, the retryer's maximum attempt count and
the log mode in the result; the loader does not set a base endpoint
(region-derived endpoint resolution happens later, in the client). -/
def LoadDefaultConfig (env : SdkEnv) (region : String) (creds : Credentials)
    (maxAttempts : Int) : Except GoError AwsConfig :=
  match env.loadShared region with
  | .error e => .error e
  | .ok sh =>
      .ok { region := region, credentials := creds, retryerMaxAttempts := maxAttempts,
            clientLogMode := LogResponseWithBody, baseEndpoint := none, sharedState := sh }

/-- Go function `newAwsConfigs` of config.go:
```go
creds := aws.NewCredentialsCache(credentials.NewStaticCredentialsProvider(c.Key, c.Secret, ""))
_, err := creds.Retrieve(context.TODO())
if err != nil { return aws.Config{}, ErrInvalidCreds.Context(err) }
r := &retryer{retryCount: c.RetryCount}
cfg, err := config.LoadDefaultConfig(..., WithRegion(c.Region), WithCredentialsProvider(creds),
    WithRetryer(... r.MaxRetries()), WithClientLogMode(aws.LogResponseWithBody))
if err != nil { return aws.Config{}, err }
if c.Hostname != "" { cfg.BaseEndpoint = &c.Hostname }
return cfg, nil
``` -/
def newAwsConfigs {π : Type} (env : SdkEnv) (c : Config π) : Except GoError AwsConfig :=
  let creds := NewStaticCredentialsProvider c.key c.secret ""
  match env.retrieveErr creds with
  | some err => .error (ErrInvalidCredsContext err)
  | none =>
      let r : retryer := { retryCount := c.retryCount }
      match LoadDefaultConfig env c.region creds (retryer.MaxRetries r) with
      | .error err => .error err
      | .ok cfg =>
          if c.hostname ≠ "" then .ok { cfg with baseEndpoint := some c.hostname }
          else .ok cfg

/-- Modelled from the spec: the resolution entry point (`Resolve` of
§4.1), whose dispatch lives in repository code outside the provided
sources — "If `cfg.AwsConfigProvider` (the override) is set, invoke it
with `cfg` and return its result verbatim, including forwarding any
error untouched"; "Otherwise run the default path" (`newAwsConfigs`).
`eval` interprets the abstract provider values `π` as functions on
`Config π` (see the comment on `Config`). -/
def Resolve {π : Type} (eval : π → Config π → Except GoError AwsConfig)
    (env : SdkEnv) (c : Config π) : Except GoError AwsConfig :=
  match c.awsConfigProvider with
  | some p => eval p c
  | none => newAwsConfigs env c

/-- C1: the retry policy built from `cfg.RetryCount` resolves its
maximum attempt count to `RetryCount` exactly when `RetryCount > 0`, and
to the fixed default 10 when `RetryCount <= 0`. -/
theorem C1_maxRetries_clamp {π : Type} (c : Config π) :
    (0 < c.retryCount → (retryer.mk c.retryCount).MaxRetries = c.retryCount) ∧
    (c.retryCount ≤ 0 → (retryer.mk c.retryCount).MaxRetries = 10) := by
  constructor
  · intro h
    simp [retryer.MaxRetries, h]
  · intro h
    simp [retryer.MaxRetries, not_lt.mpr h]

/-- Witness for C1 at `RetryCount = 5` and `RetryCount = 0`. -/
theorem C1_maxRetries_clamp_witness :
    (retryer.mk 5).MaxRetries = 5 ∧ (retryer.mk 0).MaxRetries = 10 :=
  ⟨(C1_maxRetries_clamp ({ retryCount := 5 } : Config Unit)).1 (by decide),
   (C1_maxRetries_clamp ({ retryCount := 0 } : Config Unit)).2 (by decide)⟩

/-- Concrete SDK environment for witnesses: credential retrieval
succeeds and the loader succeeds for every region. -/
def demoEnv : SdkEnv := ⟨fun _ => none, fun _ => .ok "shared"⟩

/-- Concrete SDK environment whose credential retrieval fails. -/
def credFailEnv : SdkEnv := ⟨fun _ => some (.external "bad creds"), fun _ => .ok "shared"⟩

/-- Concrete SDK environment whose loader fails. -/
def loadFailEnv : SdkEnv := ⟨fun _ => none, fun _ => .error (.external "bad region")⟩

/-- C2: when credential retrieval fails for `cfg.Key`/`cfg.Secret`, the
default bootstrap aborts with an `InvalidCredentials` error wrapping the
underlying cause, and the config-loading step is never reached — the
result is the same for every loader. -/
theorem C2_credential_failure_fail_fast {π : Type} (env : SdkEnv) (c : Config π) (e : GoError)
    (h : env.retrieveErr (NewStaticCredentialsProvider c.key c.secret "") = some e) :
    newAwsConfigs env c = .error (ErrInvalidCredsContext e) ∧
    ∀ load, newAwsConfigs { env with loadShared := load } c =
      .error (ErrInvalidCredsContext e) := by
  constructor
  · simp [newAwsConfigs, h]
  · intro load
    simp [newAwsConfigs, h]

/-- Witness for C2: a failing credential provider yields exactly the
wrapped `InvalidCredentials` error. -/
theorem C2_witness :
    credFailEnv.retrieveErr (NewStaticCredentialsProvider "k" "s" "") =
      some (GoError.external "bad creds") ∧
    newAwsConfigs credFailEnv ({ key := "k", secret := "s" } : Config Unit) =
      .error (ErrInvalidCredsContext (GoError.external "bad creds")) :=
  ⟨rfl, (C2_credential_failure_fail_fast credFailEnv _ _ rfl).1⟩

/-- C3: with a non-nil `AwsConfigProvider`, `Resolve` invokes exactly
that provider on the same `Config` value and returns its result
verbatim, errors included; the default bootstrap path is not executed —
the result does not depend on the SDK environment at all. -/
theorem C3_provider_override {π : Type} (eval : π → Config π → Except GoError AwsConfig)
    (env env' : SdkEnv) (c : Config π) (p : π)
    (h : c.awsConfigProvider = some p) :
    Resolve eval env c = eval p c ∧ Resolve eval env c = Resolve eval env' c := by
  constructor <;> simp [Resolve, h]

/-- Witness for C3: a stub override returning a sentinel error is
forwarded untouched. -/
theorem C3_witness :
    Resolve (fun (_ : Unit) _ => (.error (GoError.external "sentinel") : Except GoError AwsConfig))
        demoEnv ({ awsConfigProvider := some () } : Config Unit) =
      .error (GoError.external "sentinel") :=
  (C3_provider_override (fun _ _ => .error (GoError.external "sentinel"))
    demoEnv loadFailEnv ({ awsConfigProvider := some () } : Config Unit) () rfl).1

/-- C4: on a successful bootstrap, a non-empty `cfg.Hostname` becomes
the result's base endpoint exactly (applied after loading, so nothing
overwrites it), and an empty `cfg.Hostname` leaves the base endpoint
unset (the default region-derived endpoint resolution applies). -/
theorem C4_hostname_endpoint {π : Type} (env : SdkEnv) (c : Config π) (out : AwsConfig)
    (h : newAwsConfigs env c = .ok out) :
    (c.hostname ≠ "" → out.baseEndpoint = some c.hostname) ∧
    (c.hostname = "" → out.baseEndpoint = none) := by
  simp only [newAwsConfigs, LoadDefaultConfig] at h
  cases hr : env.retrieveErr (NewStaticCredentialsProvider c.key c.secret "") with
  | some e => simp [hr] at h
  | none =>
      simp only [hr] at h
      cases hl : env.loadShared c.region with
      | error e => simp [hl] at h
      | ok sh =>
          simp only [hl] at h
          by_cases hh : c.hostname = ""
          · rw [if_neg (not_not.mpr hh)] at h
            injection h with h
            subst h
            exact ⟨fun hc => absurd hh hc, fun _ => rfl⟩
          · rw [if_pos hh] at h
            injection h with h
            subst h
            exact ⟨fun _ => rfl, fun he => absurd he hh⟩

/-- Concrete configuration with a hostname override, for the C4 witness. -/
def hostCfg : Config Unit := { region := "us-west-1", hostname := "http://localhost:4150" }

/-- Bootstrap result for `hostCfg` under `demoEnv`. -/
def hostOut : AwsConfig :=
  { region := "us-west-1", credentials := ⟨"", "", ""⟩, retryerMaxAttempts := 10,
    clientLogMode := LogResponseWithBody, baseEndpoint := some "http://localhost:4150",
    sharedState := "shared" }

/-- Concrete configuration without a hostname override, for the C4 witness. -/
def plainCfg : Config Unit := { region := "us-west-1" }

/-- Bootstrap result for `plainCfg` under `demoEnv`. -/
def plainOut : AwsConfig :=
  { region := "us-west-1", credentials := ⟨"", "", ""⟩, retryerMaxAttempts := 10,
    clientLogMode := LogResponseWithBody, baseEndpoint := none, sharedState := "shared" }

/-- Witness for C4 at a non-empty and at an empty hostname. -/
theorem C4_witness :
    newAwsConfigs demoEnv hostCfg = .ok hostOut ∧
    hostOut.baseEndpoint = some "http://localhost:4150" ∧
    newAwsConfigs demoEnv plainCfg = .ok plainOut ∧
    plainOut.baseEndpoint = none :=
  ⟨rfl, (C4_hostname_endpoint demoEnv hostCfg hostOut rfl).1 (by decide),
   rfl, (C4_hostname_endpoint demoEnv plainCfg plainOut rfl).2 rfl⟩

/-- C8: when credential validation succeeds but the config-loading step
fails, the bootstrap returns the loader's error unmodified — the very
same error value, not wrapped in `InvalidCredentials` or anything else. -/
theorem C8_loader_error_passthrough {π : Type} (env : SdkEnv) (c : Config π) (e : GoError)
    (hc : env.retrieveErr (NewStaticCredentialsProvider c.key c.secret "") = none)
    (hl : env.loadShared c.region = .error e) :
    newAwsConfigs env c = .error e := by
  simp [newAwsConfigs, LoadDefaultConfig, hc, hl]

/-- Witness for C8: a failing loader's error surfaces as-is. -/
theorem C8_witness :
    loadFailEnv.retrieveErr (NewStaticCredentialsProvider "k" "s" "") = none ∧
    loadFailEnv.loadShared "bad-region" = .error (GoError.external "bad region") ∧
    newAwsConfigs loadFailEnv
        ({ key := "k", secret := "s", region := "bad-region" } : Config Unit) =
      .error (GoError.external "bad region") :=
  ⟨rfl, rfl, C8_loader_error_passthrough loadFailEnv _ _ rfl rfl⟩

/-- C9: with credentials accepted and the loader succeeding for the
region, the bootstrap returns a non-error result whose region equals
`cfg.Region` exactly. -/
theorem C9_success_region {π : Type} (env : SdkEnv) (c : Config π) (sh : String)
    (hc : env.retrieveErr (NewStaticCredentialsProvider c.key c.secret "") = none)
    (hl : env.loadShared c.region = .ok sh) :
    ∃ out, newAwsConfigs env c = .ok out ∧ out.region = c.region := by
  simp only [newAwsConfigs, LoadDefaultConfig, hc, hl]
  by_cases hh : c.hostname = ""
  · rw [if_neg (not_not.mpr hh)]
    exact ⟨_, rfl, rfl⟩
  · rw [if_pos hh]
    exact ⟨_, rfl, rfl⟩

/-- Witness for C9: the scenario of the spec —
`Config{Key:"k", Secret:"s", Region:"us-west-1", RetryCount:0}` under a
working provider resolves to region `"us-west-1"`. -/
theorem C9_witness :
    ∃ out, newAwsConfigs demoEnv
        ({ key := "k", secret := "s", region := "us-west-1", retryCount := 0 } : Config Unit) =
        .ok out ∧ out.region = "us-west-1" :=
  C9_success_region demoEnv _ "shared" rfl rfl

/-- C5: with the numeric tag, a Go `int` value is appended as one
attribute whose encoded value is its base-10 string; any value that is
not a Go `int` yields the `Marshal` error and leaves the configuration
(hence the attribute sequence) unchanged. -/
theorem C5_number_attribute {π : Type} (c : Config π) (title : String) (v : GoValue) :
    (∀ n, v = GoValue.int n →
      Config.NewCustomAttribute c DataTypeNumber title v =
        ({ c with attributes :=
            c.attributes ++ [⟨title, dataType.String DataTypeNumber, Itoa n⟩] }, none)) ∧
    (v.isGoInt = false →
      Config.NewCustomAttribute c DataTypeNumber title v = (c, some ErrMarshal)) := by
  constructor
  · rintro n rfl
    simp [Config.NewCustomAttribute]
  · intro h
    cases v <;> simp_all [Config.NewCustomAttribute, GoValue.isGoInt]

/-- Witness for C5: input `5` appends `"5"`; a string input under the
numeric tag fails with `Marshal` and changes nothing. -/
theorem C5_witness :
    Config.NewCustomAttribute (plainCfg : Config Unit) DataTypeNumber "corr" (GoValue.int 5) =
      ({ plainCfg with attributes := [⟨"corr", "Number", "5"⟩] }, none) ∧
    Config.NewCustomAttribute plainCfg DataTypeNumber "corr" (GoValue.string "x") =
      (plainCfg, some ErrMarshal) :=
  ⟨(C5_number_attribute plainCfg "corr" (GoValue.int 5)).1 5 rfl,
   (C5_number_attribute plainCfg "corr" (GoValue.string "x")).2 rfl⟩

/-- C6: with any non-numeric tag (the string tag included), a Go
`string` value is appended verbatim as one attribute; any value that is
not a Go `string` yields the `Marshal` error and leaves the
configuration unchanged. -/
theorem C6_string_attribute {π : Type} (c : Config π) (dt : dataType) (title : String)
    (v : GoValue) (hdt : dt ≠ DataTypeNumber) :
    (∀ s, v = GoValue.string s →
      Config.NewCustomAttribute c dt title v =
        ({ c with attributes := c.attributes ++ [⟨title, dataType.String dt, s⟩] }, none)) ∧
    (v.isGoString = false →
      Config.NewCustomAttribute c dt title v = (c, some ErrMarshal)) := by
  constructor
  · rintro s rfl
    simp [Config.NewCustomAttribute, hdt]
  · intro h
    cases v <;> simp_all [Config.NewCustomAttribute, GoValue.isGoString]

/-- Witness for C6: input `"abc"` under the string tag appends `"abc"`;
an int input under the string tag fails with `Marshal` and changes
nothing. -/
theorem C6_witness :
    Config.NewCustomAttribute (plainCfg : Config Unit) DataTypeString "corr"
        (GoValue.string "abc") =
      ({ plainCfg with attributes := [⟨"corr", "String", "abc"⟩] }, none) ∧
    Config.NewCustomAttribute plainCfg DataTypeString "corr" (GoValue.int 3) =
      (plainCfg, some ErrMarshal) :=
  ⟨(C6_string_attribute plainCfg DataTypeString "corr" (GoValue.string "abc")
      (by decide)).1 "abc" rfl,
   (C6_string_attribute plainCfg DataTypeString "corr" (GoValue.int 3)
      (by decide)).2 rfl⟩

/-- Every call of the attribute builder either appends exactly one
attribute and reports no error, or reports the `Marshal` error and
returns the receiver unchanged. -/
theorem newCustomAttribute_cases {π : Type} (c : Config π) (dt : dataType) (title : String)
    (v : GoValue) :
    (∃ a, Config.NewCustomAttribute c dt title v =
      ({ c with attributes := c.attributes ++ [a] }, none)) ∨
    Config.NewCustomAttribute c dt title v = (c, some ErrMarshal) := by
  unfold Config.NewCustomAttribute
  by_cases hdt : dt = DataTypeNumber
  · rw [if_pos hdt]
    cases v with
    | int n => exact .inl ⟨_, rfl⟩
    | int64 n => exact .inr rfl
    | int32 n => exact .inr rfl
    | float64 n => exact .inr rfl
    | string s => exact .inr rfl
    | bool b => exact .inr rfl
  · rw [if_neg hdt]
    cases v with
    | string s => exact .inl ⟨_, rfl⟩
    | int n => exact .inr rfl
    | int64 n => exact .inr rfl
    | int32 n => exact .inr rfl
    | float64 n => exact .inr rfl
    | bool b => exact .inr rfl

/-- C7: the builder is append-only and order-preserving — the old
attribute sequence is always a prefix of the new one; a successful call
appends exactly one attribute at the end; a failed call returns the
receiver entirely unchanged with the `Marshal` error; and restoring the
attribute field alone recovers the original configuration, so no other
field is ever modified. -/
theorem C7_append_only_frame {π : Type} (c : Config π) (dt : dataType) (title : String)
    (v : GoValue) :
    c.attributes <+: (Config.NewCustomAttribute c dt title v).1.attributes ∧
    ((Config.NewCustomAttribute c dt title v).2 = none →
      ∃ a, (Config.NewCustomAttribute c dt title v).1.attributes = c.attributes ++ [a]) ∧
    ((Config.NewCustomAttribute c dt title v).2 ≠ none →
      Config.NewCustomAttribute c dt title v = (c, some ErrMarshal)) ∧
    { (Config.NewCustomAttribute c dt title v).1 with attributes := c.attributes } = c := by
  rcases newCustomAttribute_cases c dt title v with ⟨a, h⟩ | h <;> rw [h]
  · exact ⟨List.prefix_append _ _, fun _ => ⟨a, rfl⟩, fun hn => absurd rfl hn, rfl⟩
  · exact ⟨List.prefix_refl _, fun hn => Option.noConfusion hn, fun _ => rfl, rfl⟩

/-- Witness for C7: a successful append extends the sequence by exactly
one element, and a failed call returns the receiver unchanged. -/
theorem C7_witness :
    (∃ a, (Config.NewCustomAttribute (plainCfg : Config Unit) DataTypeString "a"
        (GoValue.string "x")).1.attributes = plainCfg.attributes ++ [a]) ∧
    Config.NewCustomAttribute plainCfg DataTypeString "a" (GoValue.int 1) =
      (plainCfg, some ErrMarshal) :=
  ⟨(C7_append_only_frame plainCfg DataTypeString "a" (GoValue.string "x")).2.1 rfl,
   (C7_append_only_frame plainCfg DataTypeString "a" (GoValue.int 1)).2.2.1 (by decide)⟩

/-- C10: the numeric tag accepts only the exact Go type `int`: every
other dynamic type — `int64`, `int32`, a whole-number `float64`, a
string, a bool — is rejected with the `Marshal` error and the
configuration is unchanged, even when the value is representable as an
integer. -/
theorem C10_number_requires_exact_int {π : Type} (c : Config π) (title : String)
    (v : GoValue) (h : v.isGoInt = false) :
    Config.NewCustomAttribute c DataTypeNumber title v = (c, some ErrMarshal) := by
  cases v <;> simp_all [Config.NewCustomAttribute, GoValue.isGoInt]

/-- Witness for C10 at `int64 5`, `int32 5` and the whole-number float
`3.0`: all are rejected by the numeric tag. -/
theorem C10_witness :
    Config.NewCustomAttribute (plainCfg : Config Unit) DataTypeNumber "n" (GoValue.int64 5) =
      (plainCfg, some ErrMarshal) ∧
    Config.NewCustomAttribute plainCfg DataTypeNumber "n" (GoValue.int32 5) =
      (plainCfg, some ErrMarshal) ∧
    Config.NewCustomAttribute plainCfg DataTypeNumber "n" (GoValue.float64 3) =
      (plainCfg, some ErrMarshal) :=
  ⟨C10_number_requires_exact_int plainCfg "n" (GoValue.int64 5) rfl,
   C10_number_requires_exact_int plainCfg "n" (GoValue.int32 5) rfl,
   C10_number_requires_exact_int plainCfg "n" (GoValue.float64 3) rfl⟩

end Gosqs
